import Mathlib

/-!
Verification development for the GDP ETL notebook (`etl_project_gdp.ipynb`).

The notebook scrapes a Wikipedia table of countries by nominal GDP, filters
the rows, converts the GDP column from millions to billions, and loads the
result into a CSV file and a MySQL table, logging each stage.

This file gives a shallow embedding of the notebook code:
 * HTML documents are modelled by the inductive type `Node`
   (BeautifulSoup tags and navigable strings);
 * pandas DataFrames are modelled column-orientedly by `DataFrame`
   over the value type `Val` (Python strings, floats — modelled
   exactly by rationals —, soup tags, and NaN);
 * the notebook functions `extract`, `transform`, `load_to_db` and the
   stage-invocation `try`/`except` cells are translated into Lean
   functions; fallible code returns `Except String`.

The network fetch inside `extract` is an external collaborator: `extract`
here receives the already-parsed document.
-/

/-- An HTML node as seen by BeautifulSoup: either a navigable string or a
tag with a name and list of children. -/
inductive Node where
  | text (s : String)
  | elem (tag : String) (children : List Node)

mutual

/-- Decidable equality of nodes (the automatic deriving does not handle the
nested occurrence of `List Node`). -/
def Node.decEq : (a b : Node) → Decidable (a = b)
  | .text s, .text t =>
    if h : s = t then isTrue (by rw [h])
    else isFalse (by intro hh; cases hh; exact h rfl)
  | .text _, .elem _ _ => isFalse (by intro hh; cases hh)
  | .elem _ _, .text _ => isFalse (by intro hh; cases hh)
  | .elem t1 cs1, .elem t2 cs2 =>
    if h : t1 = t2 then
      match Node.decEqList cs1 cs2 with
      | isTrue h2 => isTrue (by rw [h, h2])
      | isFalse h2 => isFalse (by intro hh; injection hh; exact h2 (by assumption))
    else isFalse (by intro hh; injection hh; exact h (by assumption))

/-- Decidable equality of lists of nodes. -/
def Node.decEqList : (as bs : List Node) → Decidable (as = bs)
  | [], [] => isTrue rfl
  | [], _ :: _ => isFalse (by intro hh; cases hh)
  | _ :: _, [] => isFalse (by intro hh; cases hh)
  | a :: as, b :: bs =>
    match Node.decEq a b, Node.decEqList as bs with
    | isTrue h1, isTrue h2 => isTrue (by rw [h1, h2])
    | isFalse h1, _ => isFalse (by intro hh; injection hh; exact h1 (by assumption))
    | _, isFalse h2 => isFalse (by intro hh; injection hh; exact h2 (by assumption))

end

instance : DecidableEq Node := Node.decEq

/-- The direct children of a node (`Tag.contents` in BeautifulSoup;
a navigable string has no contents). -/
def Node.contents : Node → List Node
  | .text _ => []
  | .elem _ cs => cs

/-- Whether a node is a tag with the given name. -/
def Node.isNamed (name : String) : Node → Bool
  | .text _ => false
  | .elem t _ => t == name

mutual

/-- All descendants of a node in document (pre-)order, the order in which
BeautifulSoup's `find_all` traverses them. -/
def Node.descendants : Node → List Node
  | .text _ => []
  | .elem _ cs => Node.descList cs

/-- Descendants of a list of sibling nodes, each node before its own
descendants. -/
def Node.descList : List Node → List Node
  | [] => []
  | c :: rest => c :: (Node.descendants c ++ Node.descList rest)

end

/-- `soup.find_all(name)`: every descendant tag with the given name, in
document order. -/
def Node.findAll (name : String) (n : Node) : List Node :=
  (Node.descendants n).filter (Node.isNamed name)

/-- `tag.find(name)` (also `tag.a` for `name = "a"`): the first descendant
tag with the given name, if any. -/
def Node.find (name : String) (n : Node) : Option Node :=
  (Node.findAll name n).head?

mutual

/-- The concatenated text of all descendant strings of a node
(BeautifulSoup `get_text`), the "textual content" of a cell. -/
def Node.getText : Node → String
  | .text s => s
  | .elem _ cs => Node.textList cs

/-- Concatenated text of a list of sibling nodes. -/
def Node.textList : List Node → String
  | [] => ""
  | c :: rest => Node.getText c ++ Node.textList rest

end

/-- A value held in a DataFrame cell: a Python `str` (NavigableString
included, since it subclasses `str`), a float (modelled exactly as a
rational), a soup tag stored as-is, or NaN. -/
inductive Val where
  | vstr (s : String)
  | vnum (q : ℚ)
  | vnode (n : Node)
  | vna
deriving DecidableEq

/-- How a BeautifulSoup node is stored into a DataFrame by the notebook:
a NavigableString is a `str`; a tag stays a tag object. -/
def toVal : Node → Val
  | .text s => .vstr s
  | .elem t cs => .vnode (.elem t cs)

/-- A pandas DataFrame, column-oriented: ordered columns, each a name
paired with its values. -/
structure DataFrame where
  cols : List (String × List Val)
deriving DecidableEq

/-- `df.columns.tolist()`. -/
def DataFrame.columns (df : DataFrame) : List String :=
  df.cols.map Prod.fst

/-- `len(df)`: the length of the (first) column. -/
def DataFrame.nrows (df : DataFrame) : ℕ :=
  match df.cols with
  | [] => 0
  | c :: _ => c.2.length

/-- `df[n]` as a column lookup by name. -/
def getColumn (df : DataFrame) (n : String) : Option (List Val) :=
  (df.cols.find? (fun p => p.1 == n)).map Prod.snd

/-- `df[n] = vs`: in-place replacement of an existing column (appending a
new column when the name is absent). -/
def setColumn (df : DataFrame) (n : String) (vs : List Val) : DataFrame :=
  if df.cols.any (fun p => p.1 == n) then
    ⟨df.cols.map (fun p => if p.1 == n then (p.1, vs) else p)⟩
  else ⟨df.cols ++ [(n, vs)]⟩

/-- `df.rename(columns={a: b})`: a fresh frame with the column renamed. -/
def renameDf (df : DataFrame) (a b : String) : DataFrame :=
  ⟨df.cols.map (fun p => if p.1 == a then (b, p.2) else p)⟩

/-- Value of a one-row dict at a key, NaN when absent (pandas alignment). -/
def dictLookup (d : List (String × Val)) (n : String) : Val :=
  match d.find? (fun p => p.1 == n) with
  | some p => p.2
  | none => Val.vna

/-- `pd.concat([df, pd.DataFrame(data_dict, index=[0])], ignore_index=True)`:
append one row built from a dict, outer-aligning columns. -/
def concatRow (df : DataFrame) (d : List (String × Val)) : DataFrame :=
  ⟨df.cols.map (fun p => (p.1, p.2 ++ [dictLookup d p.1])) ++
    (d.filter (fun p => !(df.cols.any (fun c => c.1 == p.1)))).map
      (fun p => (p.1, List.replicate df.nrows Val.vna ++ [p.2]))⟩

/-- `pd.DataFrame(columns=table_attribs)`: empty frame with the given
columns. -/
def initFrame (attribs : List String) : DataFrame :=
  ⟨attribs.map (fun a => (a, []))⟩

/-- Decidable equality for `Except` results, so that concrete runs of the
embedded functions can be checked by `decide`. -/
instance {ε α : Type} [DecidableEq ε] [DecidableEq α] : DecidableEq (Except ε α)
  | .ok a, .ok b =>
    if h : a = b then isTrue (by rw [h])
    else isFalse (by intro hh; cases hh; exact h rfl)
  | .ok _, .error _ => isFalse (by intro hh; cases hh)
  | .error _, .ok _ => isFalse (by intro hh; cases hh)
  | .error e, .error f =>
    if h : e = f then isTrue (by rw [h])
    else isFalse (by intro hh; cases hh; exact h rfl)

/-- `TABLE_ATTRIBS` from the notebook configuration cell. -/
def TABLE_ATTRIBS : List String := ["Country", "GDP_USD_millions"]

/-- The error message of a Python `IndexError` on list indexing. -/
def indexErrMsg : String := "IndexError: list index out of range"

/-- `'—' in col2` for a BeautifulSoup tag: `Tag.__contains__` tests
membership in `.contents`, so this holds iff the em dash is one of the
direct child strings of the cell (a tag child never equals a `str`). -/
def dashIn (cell : Node) : Bool :=
  cell.contents.any (fun n =>
    match n with
    | .text s => s == "—"
    | _ => false)

/-- The cells of one table row, `col = row.find_all('td')`. -/
def rowCells (row : Node) : List Node :=
  Node.findAll "td" row

/-- The body of the `for row in rows` loop of `extract`:

```
col = row.find_all('td')
if len(col)!=0:
    if col[0].find('a') is not None and '—' not in col[2]:
        data_dict = {"Country": col[0].a.contents[0],
                     "GDP_USD_millions": col[2].contents[0]}
        df1 = pd.DataFrame(data_dict, index=[0])
        df = pd.concat([df,df1], ignore_index=True)
```

`col[2]` raises `IndexError` when the row has fewer than three cells, and
`contents[0]` raises `IndexError` on an empty contents list. -/
def processRow (df : DataFrame) (row : Node) : Except String DataFrame :=
  match rowCells row with
  | [] => .ok df
  | c0 :: rest =>
    match Node.find "a" c0 with
    | none => .ok df
    | some a =>
      match (c0 :: rest)[2]? with
      | none => .error indexErrMsg
      | some c2 =>
        if dashIn c2 then .ok df
        else
          match a.contents[0]? with
          | none => .error indexErrMsg
          | some cn =>
            match c2.contents[0]? with
            | none => .error indexErrMsg
            | some gn =>
              .ok (concatRow df
                [("Country", toVal cn), ("GDP_USD_millions", toVal gn)])

/-- The `for row in rows` loop of `extract`, threading the DataFrame. -/
def extractLoop (rows : List Node) (df : DataFrame) : Except String DataFrame :=
  match rows with
  | [] => .ok df
  | row :: rest =>
    match processRow df row with
    | .ok df2 => extractLoop rest df2
    | .error e => .error e

/-- The notebook `extract` function on the parsed document (the HTTP fetch
that produces the document is an external collaborator):

```
tables = soup.find_all('tbody')
rows = tables[2].find_all('tr')
for row in rows: ...
return df
```

`tables[2]` raises `IndexError` when the document has fewer than three
table bodies. -/
def extract (doc : Node) (table_attribs : List String) : Except String DataFrame :=
  match (Node.findAll "tbody" doc)[2]? with
  | none => .error indexErrMsg
  | some tb => extractLoop (Node.findAll "tr" tb) (initFrame table_attribs)

/-- `"".join(x.split(','))`: remove every comma (the grouping separator)
from the string. -/
def stripCommas (s : String) : String :=
  String.mk (s.data.filter (fun c => c ≠ ','))

/-- Numeric value of a digit string. -/
def digitsVal (cs : List Char) : ℕ :=
  cs.foldl (fun n c => 10 * n + (c.toNat - 48)) 0

/-- Exponent suffix of a float literal: after `e`/`E`, an optional sign and
a nonempty digit string, scaling the mantissa by a power of ten. -/
def applyExpDigits (q : ℚ) (neg : Bool) (ds : List Char) : Option ℚ :=
  if ds.isEmpty || !ds.all Char.isDigit then none
  else some (if neg then q / 10 ^ digitsVal ds else q * 10 ^ digitsVal ds)

/-- Part of a float literal after the mantissa: empty, or an exponent. -/
def applyExp (q : ℚ) (cs : List Char) : Option ℚ :=
  match cs with
  | [] => some q
  | 'e' :: '+' :: ds => applyExpDigits q false ds
  | 'e' :: '-' :: ds => applyExpDigits q true ds
  | 'e' :: ds => applyExpDigits q false ds
  | 'E' :: '+' :: ds => applyExpDigits q false ds
  | 'E' :: '-' :: ds => applyExpDigits q true ds
  | 'E' :: ds => applyExpDigits q false ds
  | _ => none

/-- Unsigned mantissa of a float literal: digits with an optional decimal
point, at least one digit in total, then an optional exponent. -/
def parseMag (cs : List Char) : Option ℚ :=
  let ip := cs.takeWhile Char.isDigit
  let r1 := cs.dropWhile Char.isDigit
  match r1 with
  | '.' :: r2 =>
    let fp := r2.takeWhile Char.isDigit
    let r3 := r2.dropWhile Char.isDigit
    if ip.isEmpty && fp.isEmpty then none
    else applyExp ((digitsVal ip : ℚ) + (digitsVal fp : ℚ) / 10 ^ fp.length) r3
  | _ =>
    if ip.isEmpty then none
    else applyExp (digitsVal ip : ℚ) r1

/-- The Python builtin `float(s)` on decimal literals, with the value taken
exactly as a rational (machine `float64` is the external representation;
the special forms `inf`/`nan`, underscores and surrounding whitespace are
outside the shapes this pipeline meets and are not modelled). `none` is a
raised `ValueError`. -/
def parsePyFloat (s : String) : Option ℚ :=
  match s.data with
  | '+' :: cs => parseMag cs
  | '-' :: cs => (parseMag cs).map Neg.neg
  | cs => parseMag cs

/-- Floor of a rational (denominators are positive, so flooring integer
division of numerator by denominator). -/
def ratFloor (x : ℚ) : ℤ :=
  Int.fdiv x.num (x.den : ℤ)

/-- Round a rational to the nearest integer, ties to even — the rounding
of `np.round`. -/
def roundHalfEven (x : ℚ) : ℤ :=
  let f := ratFloor x
  let r := x - (f : ℚ)
  if r < 1 / 2 then f
  else if 1 / 2 < r then f + 1
  else if f % 2 = 0 then f else f + 1

/-- `np.round(x, p)`: round to `p` decimal places, ties to even. -/
def npRound (x : ℚ) (p : ℕ) : ℚ :=
  (roundHalfEven (x * 10 ^ p) : ℚ) / 10 ^ p

/-- `float("".join(x.split(',')))` applied to one DataFrame value.  On a
non-string value (a float or a stored tag) `.split` raises
`AttributeError`, so only strings convert. -/
def toFloatVal : Val → Option ℚ
  | .vstr s => parsePyFloat (stripCommas s)
  | _ => none

/-- The first comprehension of `transform`:
`[float("".join(x.split(','))) for x in GDP_list]`, aborting on the first
unconvertible element. -/
def floatList : List Val → Except String (List ℚ)
  | [] => .ok []
  | v :: rest =>
    match toFloatVal v with
    | some q => (floatList rest).map (fun qs => q :: qs)
    | none => .error "could not convert string to float"

/-- The per-record unit conversion of `transform`: strip the grouping
separators, parse as a float, divide by 1000 and round to 2 decimals. -/
def gdpConvert (s : String) : Option ℚ :=
  (toFloatVal (Val.vstr s)).map (fun x => npRound (x / 1000) 2)

/-- The notebook `transform` function:

```
GDP_list = df["GDP_USD_millions"].tolist()
GDP_list = [float("".join(x.split(','))) for x in GDP_list]
GDP_list = [np.round(x/1000,2) for x in GDP_list]
df["GDP_USD_millions"] = GDP_list
df = df.rename(columns={"GDP_USD_millions":"GDP_USD_billions"})
return df
```

The column assignment mutates the frame the caller passed in; `rename`
then produces a fresh frame.  The result pair is (final state of the
caller's frame, returned frame). -/
def transform (df : DataFrame) : Except String (DataFrame × DataFrame) :=
  match getColumn df "GDP_USD_millions" with
  | none => .error "KeyError: GDP_USD_millions"
  | some vals =>
    match floatList vals with
    | .error e => .error e
    | .ok qs =>
      let rounded := qs.map (fun x => npRound (x / 1000) 2)
      let mutated := setColumn df "GDP_USD_millions" (rounded.map Val.vnum)
      .ok (mutated, renameDf mutated "GDP_USD_millions" "GDP_USD_billions")

/-- `DB_NAME` from the notebook configuration cell. -/
def DB_NAME : String := "World_Economies"

/-- `TABLE_NAME` from the notebook configuration cell. -/
def TABLE_NAME : String := "Countries_by_GDP"

/-- The primitive type tags of the derived storage schema (§ data model):
`TEXT` is rendered `VARCHAR(255)` in the DDL, `NUMBER` is rendered
`FLOAT`. -/
inductive ColType where
  | TEXT
  | NUMBER
deriving DecidableEq

/-- SQL rendering of a schema type tag, as in `load_to_db`. -/
def ColType.sql : ColType → String
  | .TEXT => "VARCHAR(255)"
  | .NUMBER => "FLOAT"

/-- `df[col].dtype == 'object'`: a pandas column is `object`-typed unless
it is nonempty and holds only floats (NaN is a float; an empty column
declared via `pd.DataFrame(columns=...)` is `object`). -/
def colDtypeObject (vs : List Val) : Bool :=
  vs.isEmpty || vs.any (fun v =>
    match v with
    | .vnum _ => false
    | .vna => false
    | _ => true)

/-- The column-type derivation inside `load_to_db`:
`VARCHAR(255)` (TEXT) for an `object` column, `FLOAT` (NUMBER)
otherwise, one entry per DataFrame column in order. -/
def deriveSchema (df : DataFrame) : List (String × ColType) :=
  df.cols.map (fun p => (p.1, if colDtypeObject p.2 then ColType.TEXT else ColType.NUMBER))

/-- `columns_sql` of `load_to_db`. -/
def columnsSql (df : DataFrame) : String :=
  String.intercalate ", "
    ((deriveSchema df).map (fun p => "`" ++ p.1 ++ "` " ++ p.2.sql))

/-- The column list of the `CREATE TABLE IF NOT EXISTS` statement: the
auto-increment identity column, then the schema-derived columns. -/
def createTableColumns (df : DataFrame) : List (String × String) :=
  ("id", "INT AUTO_INCREMENT PRIMARY KEY") ::
    (deriveSchema df).map (fun p => (p.1, ColType.sql p.2))

/-- The `CREATE TABLE` DDL string of `load_to_db`. -/
def createTableStmt (df : DataFrame) : String :=
  "CREATE TABLE IF NOT EXISTS `" ++ TABLE_NAME ++
    "` (id INT AUTO_INCREMENT PRIMARY KEY, " ++ columnsSql df ++ ")"

/-- `df.to_records(index=False)` followed by
`tuple(record[col] for col in column_names)`: one value tuple per
DataFrame row, values in column order. -/
def dfRecords (df : DataFrame) : List (List Val) :=
  (List.range df.nrows).map (fun i => df.cols.map (fun p => p.2.getD i Val.vna))

/-- The `%s, %s, ...` placeholder list of the parameterized insert. -/
def placeholdersSql (columnNames : List String) : String :=
  String.intercalate ", " (columnNames.map (fun _ => "%s"))

/-- The `DML` insert statement of `load_to_db`: built from column names
only, with `%s` placeholders where the values go. -/
def dmlStatement (columnNames : List String) : String :=
  "INSERT INTO `" ++ TABLE_NAME ++ "` (" ++
    String.intercalate ", " (columnNames.map (fun c => "`" ++ c ++ "`")) ++
    ") VALUES (" ++ placeholdersSql columnNames ++ ")"

/-- The sequence of `cursor.execute(DML, values)` calls of `load_to_db`:
for each record, the fixed parameterized statement paired with the value
tuple passed separately. -/
def insertCalls (df : DataFrame) : List (String × List Val) :=
  (dfRecords df).map (fun r => (dmlStatement df.columns, r))

/-- Effect of one `load_to_db` run on the stored table: create-if-absent
(an existing table is kept as-is), then append one row per record. -/
def loadToDb (existing : Option (List (List Val))) (df : DataFrame) : List (List Val) :=
  (Option.getD existing []) ++ dfRecords df

example :
    Node.findAll "td" (Node.elem "tr" [Node.elem "td" [Node.text "x"]]) =
      [Node.elem "td" [Node.text "x"]] := by decide

example :
    extract (Node.elem "html" []) TABLE_ATTRIBS = .error indexErrMsg := by decide

/-- `ratFloor` is the mathematical floor. -/
lemma ratFloor_eq_floor (x : ℚ) : ratFloor x = ⌊x⌋ := by
  rw [ratFloor, Int.fdiv_eq_ediv _ (by positivity)]
  exact Rat.floor_def.symm

/-- Evaluation rule for `ratFloor` at a known integer bound. -/
lemma ratFloor_eq_of (x : ℚ) (f : ℤ) (h1 : (f : ℚ) ≤ x) (h2 : x < f + 1) :
    ratFloor x = f := by
  rw [ratFloor_eq_floor]
  exact Int.floor_eq_iff.mpr ⟨h1, h2⟩

/-- `roundHalfEven` rounds down below the midpoint. -/
lemma roundHalfEven_eq_low (x : ℚ) (f : ℤ) (h1 : (f : ℚ) ≤ x)
    (h2 : x - f < 1 / 2) : roundHalfEven x = f := by
  have hf : ratFloor x = f := ratFloor_eq_of x f h1 (by linarith)
  simp only [roundHalfEven, hf]
  rw [if_pos h2]

/-- `roundHalfEven` rounds up above the midpoint. -/
lemma roundHalfEven_eq_high (x : ℚ) (f : ℤ) (h1 : (f : ℚ) ≤ x)
    (h1b : x < f + 1) (h2 : 1 / 2 < x - f) : roundHalfEven x = f + 1 := by
  have hf : ratFloor x = f := ratFloor_eq_of x f h1 h1b
  simp only [roundHalfEven, hf]
  rw [if_neg (by linarith), if_pos h2]

example : gdpConvert "26,854,599" = some (134273 / 5) := by
  have hp : toFloatVal (Val.vstr "26,854,599") = some ((26854599 : ℕ) : ℚ) := by
    decide
  unfold gdpConvert
  rw [hp]
  simp only [Option.map_some']
  congr 1
  unfold npRound
  have h1 : ((26854599 : ℕ) : ℚ) / 1000 * 10 ^ 2 = 26854599 / 10 := by
    push_cast; ring
  rw [h1, roundHalfEven_eq_high (26854599 / 10 : ℚ) 2685459 (by norm_num)
    (by norm_num) (by norm_num)]
  norm_num

example : gdpConvert "0" = some 0 := by
  have hp : toFloatVal (Val.vstr "0") = some ((0 : ℕ) : ℚ) := by decide
  unfold gdpConvert
  rw [hp]
  simp only [Option.map_some']
  congr 1
  unfold npRound
  have h1 : ((0 : ℕ) : ℚ) / 1000 * 10 ^ 2 = 0 := by push_cast; ring
  rw [h1, roundHalfEven_eq_low 0 0 (by norm_num) (by norm_num)]
  norm_num

example : gdpConvert "abc" = none := by decide

/-- The inclusion test actually performed by `extract` on a row (assuming
the cell accesses succeed): at least one cell, a hyperlink somewhere in
`col[0]`, and the em dash not among the direct child strings of `col[2]`. -/
def rowKeeps (row : Node) : Bool :=
  match (rowCells row)[0]? with
  | none => false
  | some c0 =>
    (Node.find "a" c0).isSome &&
      (match (rowCells row)[2]? with
       | some c2 => !dashIn c2
       | none => false)

/-- The inclusion test as the spec words it (for comparison with the
code): at least one cell, a hyperlink-style sub-element in cell 0, and the
textual content of cell 2 not equal to the em-dash placeholder. -/
def specRowIncluded (row : Node) : Bool :=
  match (rowCells row)[0]? with
  | none => false
  | some c0 =>
    (Node.find "a" c0).isSome &&
      (match (rowCells row)[2]? with
       | some c2 => !(Node.getText c2 == "—")
       | none => false)

/-- The rows on which `extract` cannot raise an `IndexError`: whenever
`col[0]` holds a hyperlink, the row has at least three cells, and for a
row that is kept, the hyperlink and `col[2]` have nonempty contents. -/
def rowSafe (row : Node) : Bool :=
  match (rowCells row)[0]? with
  | none => true
  | some c0 =>
    match Node.find "a" c0 with
    | none => true
    | some a =>
      match (rowCells row)[2]? with
      | none => false
      | some c2 => dashIn c2 || (!a.contents.isEmpty && !c2.contents.isEmpty)

/-- The `Country` value `extract` stores for a kept row:
`col[0].a.contents[0]`. -/
def countryOf (row : Node) : Val :=
  match (rowCells row)[0]? with
  | none => Val.vna
  | some c0 =>
    match Node.find "a" c0 with
    | none => Val.vna
    | some a =>
      match a.contents[0]? with
      | some n => toVal n
      | none => Val.vna

/-- The `GDP_USD_millions` value `extract` stores for a kept row:
`col[2].contents[0]`. -/
def gdpOf (row : Node) : Val :=
  match (rowCells row)[2]? with
  | none => Val.vna
  | some c2 =>
    match c2.contents[0]? with
    | some n => toVal n
    | none => Val.vna

/-- The in-memory state of the notebook run across the stage-invocation
cells: the shared `df` variable (undefined before a successful extract),
the lines appended to the log file, the CSV sink and the database table. -/
structure RunState where
  df : Option DataFrame
  log : List String
  csv : Option DataFrame
  table : Option (List (List Val))

/-- The message of a Python `NameError` on an undefined variable. -/
def nameErrMsg (v : String) : String :=
  "NameError: name " ++ v ++ " is not defined"

/-- The extract invocation cell:

```
try:
    df=extract(URL,TABLE_ATTRIBS)
    log_progress("Data extracted successfuly")
except Exception as e:
    log_progress(f"Error while extracting data: {e}")
``` -/
def extractCell (doc : Node) (s : RunState) : RunState :=
  match extract doc TABLE_ATTRIBS with
  | .ok d => { s with df := some d, log := s.log ++ ["Data extracted successfuly"] }
  | .error e => { s with log := s.log ++ ["Error while extracting data: " ++ e] }

/-- The transform invocation cell (`df=transform(df)` under
`try`/`except`).  When `df` is undefined the call raises a `NameError`;
on success the variable is rebound to the returned frame; on a conversion
error the variable keeps the frame it had (the error precedes the in-place
column assignment). -/
def transformCell (s : RunState) : RunState :=
  match s.df with
  | none => { s with log := s.log ++ ["Error while transforming data: " ++ nameErrMsg "df"] }
  | some d =>
    match transform d with
    | .ok p => { s with df := some p.2, log := s.log ++ ["Data transformed successfuly"] }
    | .error e => { s with log := s.log ++ ["Error while transforming data: " ++ e] }

/-- The CSV-load invocation cell (`load_to_csv(df)` under `try`/`except`);
`df.to_csv(CSV_PATH)` overwrites the file with the frame. -/
def loadToCsvCell (s : RunState) : RunState :=
  match s.df with
  | none => { s with log := s.log ++ ["Error while loading data to CSV: " ++ nameErrMsg "df"] }
  | some d => { s with csv := some d, log := s.log ++ ["Data loaded to CSV successfuly"] }

/-- The DB-load invocation cell (`load_to_db(df)` under `try`/`except`).
`dbOk` abstracts the external database connection: when it is false the
stage raises (a connection error) and is logged; otherwise the run
creates the table if absent and appends the records. -/
def loadToDbCell (dbOk : Bool) (s : RunState) : RunState :=
  match s.df with
  | none => { s with log := s.log ++ ["Error while loading data to DB: " ++ nameErrMsg "df"] }
  | some d =>
    if dbOk then
      { s with table := some (loadToDb s.table d),
               log := s.log ++ ["Data loaded to DB successfuly"] }
    else { s with log := s.log ++ ["Error while loading data to DB: ConnectionError"] }

/-- The four stage-invocation cells in notebook order. -/
def runPipeline (doc : Node) (dbOk : Bool) (s0 : RunState) : RunState :=
  loadToDbCell dbOk (loadToCsvCell (transformCell (extractCell doc s0)))

/-- The query invocation cell:

```
try:
    quey_statement = run_query(f"SELECT * FROM Countries_by_GDP")
except Exception as e:
    log_progress(f"Error while querying data: {e}")
finally:
        log_progress(f"Query made: {quey_statement}")
```

`run_query` is an external database call, abstracted as its result.  The
variable `quey_statement` is assigned nowhere else in the notebook, so on
failure the `finally` block reads an undefined name and itself raises a
`NameError`, which escapes the cell after the handler ran.  The result is
the pair (log lines written, error escaping the cell). -/
def runQueryCell (res : Except String String) : List String × Option String :=
  let quey : Option String := none
  match res with
  | .ok q =>
    match some q with
    | some qs => (["Query made: " ++ qs], none)
    | none => ([], some (nameErrMsg "quey_statement"))
  | .error e =>
    match quey with
    | some qs => (["Error while querying data: " ++ e, "Query made: " ++ qs], none)
    | none => (["Error while querying data: " ++ e], some (nameErrMsg "quey_statement"))

/-! ### Supporting lemmas -/

/-- On the standard two-column frame, appending the row dict built by
`extract` appends one value to each column. -/
lemma concatRow_std (xs ys : List Val) (v w : Val) :
    concatRow ⟨[("Country", xs), ("GDP_USD_millions", ys)]⟩
      [("Country", v), ("GDP_USD_millions", w)] =
    ⟨[("Country", xs ++ [v]), ("GDP_USD_millions", ys ++ [w])]⟩ := rfl

/-- On a safe row, the loop body never raises: it appends the extracted
record when the inclusion test holds and leaves the frame unchanged
otherwise. -/
lemma processRow_safe (df : DataFrame) (row : Node) (h : rowSafe row = true) :
    processRow df row =
      .ok (if rowKeeps row then
            concatRow df [("Country", countryOf row), ("GDP_USD_millions", gdpOf row)]
          else df) := by
  unfold rowSafe at h
  unfold processRow rowKeeps countryOf gdpOf
  cases e : rowCells row with
  | nil => simp
  | cons c0 rest =>
    rw [e] at h
    simp only [List.getElem?_cons_zero, List.getElem?_cons_succ] at h ⊢
    cases ha : Node.find "a" c0 with
    | none => simp [ha]
    | some a =>
      simp only [ha] at h
      cases e2 : rest[1]? with
      | none => simp [e2] at h
      | some c2 =>
        simp only [e2] at h
        by_cases hd : dashIn c2 = true
        · simp [hd]
        · rw [Bool.not_eq_true] at hd
          rw [hd, Bool.false_or] at h
          simp only [Bool.and_eq_true, Bool.not_eq_true'] at h
          obtain ⟨hae, hce⟩ := h
          cases ca : a.contents with
          | nil => rw [ca] at hae; simp at hae
          | cons cn tl =>
            cases cc : c2.contents with
            | nil => rw [cc] at hce; simp at hce
            | cons gn tl2 => simp [ca, cc, hd]

/-- Running the extraction loop on safe rows from the standard empty frame
collects, in order, exactly the records of the rows passing the inclusion
test. -/
lemma extractLoop_std (rows : List Node) (xs ys : List Val)
    (hs : ∀ row ∈ rows, rowSafe row = true) :
    extractLoop rows ⟨[("Country", xs), ("GDP_USD_millions", ys)]⟩ =
      .ok ⟨[("Country", xs ++ (rows.filter rowKeeps).map countryOf),
            ("GDP_USD_millions", ys ++ (rows.filter rowKeeps).map gdpOf)]⟩ := by
  induction rows generalizing xs ys with
  | nil => simp [extractLoop]
  | cons row rest ih =>
    have hr := processRow_safe ⟨[("Country", xs), ("GDP_USD_millions", ys)]⟩ row
      (hs row (by simp))
    unfold extractLoop
    rw [hr]
    dsimp only
    by_cases hk : rowKeeps row = true
    · rw [if_pos hk, concatRow_std,
        ih (xs ++ [countryOf row]) (ys ++ [gdpOf row])
          (fun r hrr => hs r (by simp [hrr]))]
      simp [hk, List.filter_cons]
    · rw [if_neg hk, ih xs ys (fun r hrr => hs r (by simp [hrr]))]
      simp [hk, List.filter_cons]

/-- When every safe row fails the inclusion test, the loop returns the
initial frame unchanged, whatever its columns are. -/
lemma extractLoop_nokeep (rows : List Node) (df : DataFrame)
    (hs : ∀ row ∈ rows, rowSafe row = true)
    (hk : ∀ row ∈ rows, rowKeeps row = false) :
    extractLoop rows df = .ok df := by
  induction rows with
  | nil => rfl
  | cons row rest ih =>
    unfold extractLoop
    rw [processRow_safe df row (hs row (by simp))]
    dsimp only
    rw [if_neg (by simp [hk row (by simp)])]
    exact ih (fun r hrr => hs r (by simp [hrr])) (fun r hrr => hk r (by simp [hrr]))

/-- The element-wise float conversion fails exactly when some value fails
to convert. -/
lemma floatList_error_iff (vals : List Val) :
    (∃ e, floatList vals = .error e) ↔ ∃ v ∈ vals, toFloatVal v = none := by
  induction vals with
  | nil => simp [floatList]
  | cons v rest ih =>
    constructor
    · rintro ⟨e, he⟩
      unfold floatList at he
      cases hv : toFloatVal v with
      | none => exact ⟨v, by simp, hv⟩
      | some q =>
        rw [hv] at he
        cases hr : floatList rest with
        | ok qs => rw [hr] at he; exact absurd he (by simp [Except.map])
        | error e2 =>
          obtain ⟨x, hx, hxn⟩ := ih.mp ⟨e2, hr⟩
          exact ⟨x, by simp [hx], hxn⟩
    · rintro ⟨x, hx, hxn⟩
      rcases List.mem_cons.mp hx with h1 | h2
      · subst h1
        unfold floatList
        rw [hxn]
        exact ⟨_, rfl⟩
      · obtain ⟨e, he⟩ := ih.mpr ⟨x, h2, hxn⟩
        unfold floatList
        cases hv : toFloatVal v with
        | none => exact ⟨_, rfl⟩
        | some q => exact ⟨e, by rw [he]; rfl⟩

/-- Replacing an existing column by name changes exactly that column's
values (list form). -/
lemma find_setcols (l : List (String × List Val)) (n : String) (vs : List Val)
    (h : l.any (fun p => p.1 == n) = true) :
    ((l.map (fun p => if p.1 == n then (p.1, vs) else p)).find?
        (fun p => p.1 == n)).map Prod.snd = some vs := by
  induction l with
  | nil => simp at h
  | cons p rest ih =>
    by_cases hp : (p.1 == n) = true
    · rw [List.map_cons, if_pos hp, List.find?_cons_of_pos]
      · rfl
      · exact hp
    · have h2 : rest.any (fun p => p.1 == n) = true := by
        simp only [List.any_cons, hp, Bool.false_or] at h
        exact h
      rw [List.map_cons, if_neg hp, List.find?_cons_of_neg]
      · exact ih h2
      · exact hp

/-- `getColumn` after `setColumn` on a present column returns the new
values. -/
lemma getColumn_setColumn (df : DataFrame) (n : String) (vals vs : List Val)
    (h : getColumn df n = some vals) :
    getColumn (setColumn df n vs) n = some vs := by
  have hany : df.cols.any (fun p => p.1 == n) = true := by
    unfold getColumn at h
    cases hf : df.cols.find? (fun p => p.1 == n) with
    | none => rw [hf] at h; cases h
    | some p =>
      have hpa := List.find?_some hf
      rw [List.any_eq_true]
      exact ⟨p, List.mem_of_find?_eq_some hf, hpa⟩
  unfold getColumn setColumn
  rw [if_pos hany]
  exact find_setcols df.cols n vs hany

/-- A successful element-wise conversion means every value converted, and
preserves the length. -/
lemma floatList_ok (vals : List Val) (qs : List ℚ) (h : floatList vals = .ok qs) :
    qs.length = vals.length ∧ ∀ v ∈ vals, toFloatVal v ≠ none := by
  induction vals generalizing qs with
  | nil => cases h; simp
  | cons v rest ih =>
    unfold floatList at h
    cases hv : toFloatVal v with
    | none => rw [hv] at h; cases h
    | some q =>
      rw [hv] at h
      cases hr : floatList rest with
      | error e => rw [hr] at h; cases h
      | ok qs2 =>
        rw [hr] at h
        cases h
        obtain ⟨hl, hall⟩ := ih qs2 hr
        constructor
        · simp [hl]
        · intro x hx
          rcases List.mem_cons.mp hx with h1 | h2
          · rw [h1, hv]; simp
          · exact hall x h2

/-- Concrete run of the unit conversion on the spec's sample value. -/
lemma gdpConvert_big : gdpConvert "26,854,599" = some (134273 / 5) := by
  have hp : toFloatVal (Val.vstr "26,854,599") = some ((26854599 : ℕ) : ℚ) := by
    decide
  unfold gdpConvert
  rw [hp]
  simp only [Option.map_some']
  congr 1
  unfold npRound
  have h1 : ((26854599 : ℕ) : ℚ) / 1000 * 10 ^ 2 = 26854599 / 10 := by
    push_cast; ring
  rw [h1, roundHalfEven_eq_high (26854599 / 10 : ℚ) 2685459 (by norm_num)
    (by norm_num) (by norm_num)]
  norm_num

/-- Concrete run of the unit conversion on the value `"0"`. -/
lemma gdpConvert_zero : gdpConvert "0" = some 0 := by
  have hp : toFloatVal (Val.vstr "0") = some ((0 : ℕ) : ℚ) := by decide
  unfold gdpConvert
  rw [hp]
  simp only [Option.map_some']
  congr 1
  unfold npRound
  have h1 : ((0 : ℕ) : ℚ) / 1000 * 10 ^ 2 = 0 := by push_cast; ring
  rw [h1, roundHalfEven_eq_low 0 0 (by norm_num) (by norm_num)]
  norm_num

/-- Concrete run of the unit conversion on the value `"1,000"`. -/
lemma gdpConvert_thousand : gdpConvert "1,000" = some 1 := by
  have hp : toFloatVal (Val.vstr "1,000") = some ((1000 : ℕ) : ℚ) := by decide
  unfold gdpConvert
  rw [hp]
  simp only [Option.map_some']
  congr 1
  unfold npRound
  have h1 : ((1000 : ℕ) : ℚ) / 1000 * 10 ^ 2 = 100 := by push_cast; ring
  rw [h1, roundHalfEven_eq_low 100 100 (by norm_num) (by norm_num)]
  norm_num

/-- Full behaviour of `transform` on a one-record raw frame whose GDP
string converts: the caller's frame ends with the converted number under
the old column name, and the returned frame is its rename. -/
lemma transform_single (c : Val) (s : String) (q : ℚ) (h : gdpConvert s = some q) :
    transform ⟨[("Country", [c]), ("GDP_USD_millions", [Val.vstr s])]⟩ =
      .ok (⟨[("Country", [c]), ("GDP_USD_millions", [Val.vnum q])]⟩,
           ⟨[("Country", [c]), ("GDP_USD_billions", [Val.vnum q])]⟩) := by
  obtain ⟨q0, hf, hr⟩ : ∃ q0, toFloatVal (Val.vstr s) = some q0 ∧
      npRound (q0 / 1000) 2 = q := by
    unfold gdpConvert at h
    cases hf : toFloatVal (Val.vstr s) with
    | none => rw [hf] at h; cases h
    | some q0 =>
      rw [hf, Option.map_some'] at h
      exact ⟨q0, rfl, Option.some.inj h⟩
  have hg : getColumn ⟨[("Country", [c]), ("GDP_USD_millions", [Val.vstr s])]⟩
      "GDP_USD_millions" = some [Val.vstr s] := rfl
  have hfl : floatList [Val.vstr s] = .ok [q0] := by
    unfold floatList
    rw [hf]
    rfl
  unfold transform
  rw [hg]
  dsimp only
  rw [hfl]
  dsimp only [List.map_cons, List.map_nil]
  rw [hr]
  rfl

/-- The extract invocation cell writes exactly one log line, either the
success message or the stage error prefix. -/
lemma extractCell_log (doc : Node) (s : RunState) :
    ∃ m, (extractCell doc s).log = s.log ++ [m] ∧
      (m = "Data extracted successfuly" ∨
        ∃ e, m = "Error while extracting data: " ++ e) := by
  unfold extractCell
  cases extract doc TABLE_ATTRIBS with
  | ok d => exact ⟨_, rfl, Or.inl rfl⟩
  | error e => exact ⟨_, rfl, Or.inr ⟨e, rfl⟩⟩

/-- The transform invocation cell writes exactly one log line. -/
lemma transformCell_log (s : RunState) :
    ∃ m, (transformCell s).log = s.log ++ [m] ∧
      (m = "Data transformed successfuly" ∨
        ∃ e, m = "Error while transforming data: " ++ e) := by
  unfold transformCell
  cases s.df with
  | none => exact ⟨_, rfl, Or.inr ⟨_, rfl⟩⟩
  | some d =>
    dsimp only
    cases transform d with
    | ok p => exact ⟨_, rfl, Or.inl rfl⟩
    | error e => exact ⟨_, rfl, Or.inr ⟨e, rfl⟩⟩

/-- The CSV-load invocation cell writes exactly one log line. -/
lemma loadToCsvCell_log (s : RunState) :
    ∃ m, (loadToCsvCell s).log = s.log ++ [m] ∧
      (m = "Data loaded to CSV successfuly" ∨
        ∃ e, m = "Error while loading data to CSV: " ++ e) := by
  unfold loadToCsvCell
  cases s.df with
  | none => exact ⟨_, rfl, Or.inr ⟨_, rfl⟩⟩
  | some d => exact ⟨_, rfl, Or.inl rfl⟩

/-- The DB-load invocation cell writes exactly one log line. -/
lemma loadToDbCell_log (dbOk : Bool) (s : RunState) :
    ∃ m, (loadToDbCell dbOk s).log = s.log ++ [m] ∧
      (m = "Data loaded to DB successfuly" ∨
        ∃ e, m = "Error while loading data to DB: " ++ e) := by
  unfold loadToDbCell
  cases s.df with
  | none => exact ⟨_, rfl, Or.inr ⟨_, rfl⟩⟩
  | some d =>
    cases dbOk with
    | true => exact ⟨_, rfl, Or.inl rfl⟩
    | false => exact ⟨_, rfl, Or.inr ⟨_, rfl⟩⟩

/-! ### Claim theorems -/

/-- Concrete first cell for the C1 counterexample: a `td` holding a
hyperlink. -/
def c1Td0 : Node := .elem "td" [.elem "a" [.text "Testland"]]

/-- Concrete third cell for the C1 counterexample: a `td` whose only child
is a `span` wrapping the em dash, so its textual content is exactly the
placeholder, yet the em dash is not a direct child string. -/
def c1Td2 : Node := .elem "td" [.elem "span" [.text "—"]]

/-- Concrete row for the C1 counterexample. -/
def c1Row : Node := .elem "tr" [c1Td0, .elem "td" [.text "x"], c1Td2]

/-- Concrete document for the C1 counterexample, with the row in the third
table body. -/
def c1Doc : Node :=
  .elem "html" [.elem "tbody" [], .elem "tbody" [], .elem "tbody" [c1Row]]

/-- C1, counterexample.  The claim says a row is included only if cell 2's
textual content differs from the em dash.  Here cell 2's textual content
is exactly the em dash (it is wrapped in a sub-element), the spec-worded
inclusion test rejects the row, and yet `extract` emits a record for it,
because the code's test `'—' not in col[2]` only inspects the direct
children of the cell. -/
theorem C1_counterexample :
    specRowIncluded c1Row = false ∧
    Node.getText c1Td2 = "—" ∧
    extract c1Doc TABLE_ATTRIBS =
      .ok ⟨[("Country", [Val.vstr "Testland"]),
            ("GDP_USD_millions", [Val.vnode (Node.elem "span" [Node.text "—"])])]⟩ :=
  ⟨by decide, by decide, by decide⟩

/-- C1 (amended): over documents whose third table body exists and whose
rows are index-safe (a row with a hyperlink in cell 0 has at least three
cells, and a kept row's hyperlink and cell 2 have nonempty contents —
otherwise the extraction aborts with an `IndexError`), a row contributes a
record to the output iff it has at least one cell, cell 0 contains a
hyperlink, and the em dash is not among the direct child strings of
cell 2; input order is preserved, `Country` is the first content of the
hyperlink and `GDP_USD_millions` is the first content of cell 2. -/
theorem C1_filtering (doc t : Node)
    (ht : (Node.findAll "tbody" doc)[2]? = some t)
    (hs : ∀ row ∈ Node.findAll "tr" t, rowSafe row = true) :
    extract doc TABLE_ATTRIBS =
      .ok ⟨[("Country", ((Node.findAll "tr" t).filter rowKeeps).map countryOf),
            ("GDP_USD_millions",
              ((Node.findAll "tr" t).filter rowKeeps).map gdpOf)]⟩ := by
  unfold extract
  rw [ht]
  have h := extractLoop_std (Node.findAll "tr" t) [] [] hs
  simpa [initFrame, TABLE_ATTRIBS] using h

/-- Kept row for the C1 witness. -/
def c1wRowA : Node :=
  .elem "tr" [.elem "td" [.elem "a" [.text "Aland"]],
              .elem "td" [.text "x"], .elem "td" [.text "1,000"]]

/-- Dropped row (no hyperlink in cell 0) for the C1 witness. -/
def c1wRowB : Node :=
  .elem "tr" [.elem "td" [.text "B"],
              .elem "td" [.text "y"], .elem "td" [.text "2,000"]]

/-- Third table body for the C1 witness. -/
def c1wT : Node := .elem "tbody" [c1wRowA, c1wRowB]

/-- Document for the C1 witness. -/
def c1wDoc : Node := .elem "html" [.elem "tbody" [], .elem "tbody" [], c1wT]

/-- C1, witness: the amended theorem applied to a concrete two-row
document keeps exactly the hyperlinked row, in order. -/
theorem C1_witness :
    extract c1wDoc TABLE_ATTRIBS =
      .ok ⟨[("Country", [Val.vstr "Aland"]),
            ("GDP_USD_millions", [Val.vstr "1,000"])]⟩ := by
  rw [C1_filtering c1wDoc c1wT (by decide) (by decide)]
  decide

/-- C2: for every record whose raw GDP string parses as a decimal after
separator stripping, the unit conversion divides by 1000 and rounds
half-even to two decimals; on a one-record raw frame `transform` stores
exactly that converted value; `"26,854,599"` converts to a value within
0.005 of 26854.6, and `"0"` converts to 0. -/
theorem C2_unit_conversion :
    (∀ s q, parsePyFloat (stripCommas s) = some q →
      gdpConvert s = some (npRound (q / 1000) 2)) ∧
    (∀ c s q, gdpConvert s = some q →
      transform ⟨[("Country", [c]), ("GDP_USD_millions", [Val.vstr s])]⟩ =
        .ok (⟨[("Country", [c]), ("GDP_USD_millions", [Val.vnum q])]⟩,
             ⟨[("Country", [c]), ("GDP_USD_billions", [Val.vnum q])]⟩)) ∧
    (∃ q, gdpConvert "26,854,599" = some q ∧ |q - 268546 / 10| ≤ 5 / 1000) ∧
    gdpConvert "0" = some 0 := by
  refine ⟨?_, ?_, ?_, gdpConvert_zero⟩
  · intro s q h
    simp [gdpConvert, toFloatVal, h]
  · intro c s q h
    exact transform_single c s q h
  · exact ⟨134273 / 5, gdpConvert_big, by norm_num⟩

/-- C2, witness: the general statement instantiated at `"1,000"` and at a
concrete one-record frame with GDP string `"0"`. -/
theorem C2_witness :
    gdpConvert "1,000" = some (npRound ((1000 : ℚ) / 1000) 2) ∧
    transform ⟨[("Country", [Val.vstr "A"]), ("GDP_USD_millions", [Val.vstr "0"])]⟩ =
      .ok (⟨[("Country", [Val.vstr "A"]), ("GDP_USD_millions", [Val.vnum 0])]⟩,
           ⟨[("Country", [Val.vstr "A"]), ("GDP_USD_billions", [Val.vnum 0])]⟩) :=
  ⟨C2_unit_conversion.1 "1,000" 1000 (by decide),
   C2_unit_conversion.2.1 (Val.vstr "A") "0" 0 gdpConvert_zero⟩

/-- C3: the parser takes the third table body — when the document has
fewer than three table bodies, `extract` fails with the index error (the
spec's `ParseError`) instead of returning rows from some other table, and
when the third one exists, the whole extraction only processes that
table body's rows, in document order. -/
theorem C3_third_table (doc : Node) (attribs : List String) :
    ((Node.findAll "tbody" doc).length < 3 →
      extract doc attribs = .error indexErrMsg) ∧
    (∀ t, (Node.findAll "tbody" doc)[2]? = some t →
      extract doc attribs = extractLoop (Node.findAll "tr" t) (initFrame attribs)) := by
  constructor
  · intro h
    unfold extract
    rw [List.getElem?_eq_none (by omega)]
  · intro t ht
    unfold extract
    rw [ht]

/-- Document with no table body for the C3 witness. -/
def c3Doc0 : Node := .elem "html" [.elem "p" [.text "no tables"]]

/-- Third table body for the C3 witness. -/
def c3wT : Node := .elem "tbody" [.elem "tr" []]

/-- Document with three table bodies for the C3 witness. -/
def c3Doc3 : Node := .elem "html" [.elem "tbody" [], .elem "tbody" [], c3wT]

/-- C3, witness: a document with no table body makes `extract` fail, and
on a document with three table bodies `extract` runs the loop on the
third one's rows. -/
theorem C3_witness :
    extract c3Doc0 TABLE_ATTRIBS = .error indexErrMsg ∧
    extract c3Doc3 TABLE_ATTRIBS =
      extractLoop (Node.findAll "tr" c3wT) (initFrame TABLE_ATTRIBS) :=
  ⟨(C3_third_table c3Doc0 TABLE_ATTRIBS).1 (by decide),
   (C3_third_table c3Doc3 TABLE_ATTRIBS).2 c3wT (by decide)⟩

/-- Row for the C9 counterexample: a single cell holding a hyperlink and
no third cell. -/
def c9Row : Node := .elem "tr" [.elem "td" [.elem "a" [.text "X"]]]

/-- Third table body for the C9 counterexample. -/
def c9T : Node := .elem "tbody" [c9Row]

/-- Document for the C9 counterexample. -/
def c9Doc : Node := .elem "html" [.elem "tbody" [], .elem "tbody" [], c9T]

/-- C9, counterexample.  The claim says that when no row passes the
inclusion test, `extract` does not fail and returns the empty frame.
Here the third table body exists and no row passes the inclusion test,
yet `extract` raises: the lone row has a hyperlink but fewer than three
cells, so the test itself crashes on `col[2]`. -/
theorem C9_counterexample :
    ((Node.findAll "tr" c9T).all (fun r => !rowKeeps r)) = true ∧
    extract c9Doc TABLE_ATTRIBS = .error indexErrMsg :=
  ⟨by decide, by decide⟩

/-- C9 (amended): over documents whose third table body exists, whose rows
are index-safe (a row with a hyperlink in cell 0 has at least three
cells), and in which no row passes the inclusion test — also when the
table body has no rows — `extract` does not fail and returns an empty
frame whose columns are exactly the supplied `table_attribs`, in order. -/
theorem C9_empty_result (doc t : Node) (attribs : List String)
    (ht : (Node.findAll "tbody" doc)[2]? = some t)
    (hs : ∀ row ∈ Node.findAll "tr" t, rowSafe row = true)
    (hk : ∀ row ∈ Node.findAll "tr" t, rowKeeps row = false) :
    extract doc attribs = .ok (initFrame attribs) ∧
    (initFrame attribs).columns = attribs := by
  constructor
  · unfold extract
    rw [ht]
    exact extractLoop_nokeep _ _ hs hk
  · have hcomp : (Prod.fst ∘ fun a : String => (a, ([] : List Val))) = id := rfl
    simp [initFrame, DataFrame.columns, hcomp]

/-- Row without a hyperlink for the C9 witness. -/
def c9wRow : Node :=
  .elem "tr" [.elem "td" [.text "B"], .elem "td" [.text "y"],
              .elem "td" [.text "2"]]

/-- Third table body for the C9 witness. -/
def c9wT : Node := .elem "tbody" [c9wRow]

/-- Document for the C9 witness. -/
def c9wDoc : Node := .elem "html" [.elem "tbody" [], .elem "tbody" [], c9wT]

/-- C9, witness: the amended theorem applied to a concrete document whose
only row fails the inclusion test. -/
theorem C9_witness :
    extract c9wDoc ["Country", "GDP_USD_millions"] =
      .ok (initFrame ["Country", "GDP_USD_millions"]) ∧
    (initFrame ["Country", "GDP_USD_millions"]).columns =
      ["Country", "GDP_USD_millions"] :=
  C9_empty_result c9wDoc c9wT ["Country", "GDP_USD_millions"]
    (by decide) (by decide) (by decide)

/-- C4: every run attempts all four pipeline stages regardless of
failures; each stage-invocation cell catches its stage's error and
appends exactly one log line — the stage success message or the
stage-specific error prefix followed by the error — and no stage failure
escapes the pipeline (the run always completes to a final state). -/
theorem C4_stage_isolation (doc : Node) (dbOk : Bool) (s0 : RunState) :
    ∃ m1 m2 m3 m4,
      (runPipeline doc dbOk s0).log = s0.log ++ [m1, m2, m3, m4] ∧
      (m1 = "Data extracted successfuly" ∨
        ∃ e, m1 = "Error while extracting data: " ++ e) ∧
      (m2 = "Data transformed successfuly" ∨
        ∃ e, m2 = "Error while transforming data: " ++ e) ∧
      (m3 = "Data loaded to CSV successfuly" ∨
        ∃ e, m3 = "Error while loading data to CSV: " ++ e) ∧
      (m4 = "Data loaded to DB successfuly" ∨
        ∃ e, m4 = "Error while loading data to DB: " ++ e) := by
  obtain ⟨m1, h1, p1⟩ := extractCell_log doc s0
  obtain ⟨m2, h2, p2⟩ := transformCell_log (extractCell doc s0)
  obtain ⟨m3, h3, p3⟩ := loadToCsvCell_log (transformCell (extractCell doc s0))
  obtain ⟨m4, h4, p4⟩ :=
    loadToDbCell_log dbOk (loadToCsvCell (transformCell (extractCell doc s0)))
  refine ⟨m1, m2, m3, m4, ?_, p1, p2, p3, p4⟩
  unfold runPipeline
  rw [h4, h3, h2, h1]
  simp

/-- Raw frame for the C5 counterexample. -/
def c5Df : DataFrame :=
  ⟨[("Country", [Val.vstr "X"]), ("GDP_USD_millions", [Val.vstr "1,000"])]⟩

/-- State of the caller's frame after `transform` returns: the GDP column
was replaced, in place, by the converted number. -/
def c5Mut : DataFrame :=
  ⟨[("Country", [Val.vstr "X"]), ("GDP_USD_millions", [Val.vnum 1])]⟩

/-- The frame `transform` returns for `c5Df`. -/
def c5Ret : DataFrame :=
  ⟨[("Country", [Val.vstr "X"]), ("GDP_USD_billions", [Val.vnum 1])]⟩

/-- C5, counterexample.  The claim says the DataFrame passed to
`transform` is unchanged after the call, still holding the original
string-valued `GDP_USD_millions` column.  On this one-record frame the
call succeeds and the caller's frame (first component) is not the
original: its `GDP_USD_millions` column now holds the converted float. -/
theorem C5_counterexample :
    transform c5Df = .ok (c5Mut, c5Ret) ∧ c5Mut ≠ c5Df :=
  ⟨transform_single (Val.vstr "X") "1,000" 1 gdpConvert_thousand, by decide⟩

/-- C5 (amended): `transform` mutates the collection it received — after a
successful `transform(df)` with a nonempty GDP column, the passed-in frame
is no longer the original: its `GDP_USD_millions` column holds the
converted floats in place; only the final rename produces a fresh frame,
which is the returned one. -/
theorem C5_transform_mutates (df m r : DataFrame) (vals : List Val)
    (hv : getColumn df "GDP_USD_millions" = some vals)
    (hne : vals ≠ [])
    (h : transform df = .ok (m, r)) :
    m ≠ df ∧
    (∃ qs : List ℚ, getColumn m "GDP_USD_millions" = some (qs.map Val.vnum)) ∧
    r = renameDf m "GDP_USD_millions" "GDP_USD_billions" := by
  unfold transform at h
  rw [hv] at h
  dsimp only at h
  cases hfl : floatList vals with
  | error e => rw [hfl] at h; cases h
  | ok qs =>
    rw [hfl] at h
    dsimp only at h
    rw [Except.ok.injEq, Prod.mk.injEq] at h
    obtain ⟨hm, hr⟩ := h
    have hget : getColumn m "GDP_USD_millions" =
        some ((qs.map (fun x => npRound (x / 1000) 2)).map Val.vnum) := by
      rw [← hm]
      exact getColumn_setColumn df _ vals _ hv
    refine ⟨?_, ⟨qs.map (fun x => npRound (x / 1000) 2), hget⟩, by rw [← hr, ← hm]⟩
    intro hEq
    rw [hEq, hv] at hget
    have hvals : vals = (qs.map (fun x => npRound (x / 1000) 2)).map Val.vnum :=
      Option.some.inj hget
    obtain ⟨hlen, hall⟩ := floatList_ok vals qs hfl
    cases hv2 : vals with
    | nil => exact hne hv2
    | cons v rest =>
      have hvmem := hall v (by rw [hv2]; simp)
      rw [hv2] at hvals
      cases hq : qs.map (fun x => npRound (x / 1000) 2) with
      | nil => rw [hq] at hvals; cases hvals
      | cons q0 l =>
        rw [hq] at hvals
        simp only [List.map_cons, List.cons.injEq] at hvals
        obtain ⟨hv1, _⟩ := hvals
        rw [hv1] at hvmem
        exact hvmem rfl

/-- C5, witness: the amended theorem applied to the concrete one-record
frame. -/
theorem C5_witness :
    c5Mut ≠ c5Df ∧
    (∃ qs : List ℚ, getColumn c5Mut "GDP_USD_millions" = some (qs.map Val.vnum)) ∧
    c5Ret = renameDf c5Mut "GDP_USD_millions" "GDP_USD_billions" :=
  C5_transform_mutates c5Df c5Mut c5Ret [Val.vstr "1,000"] (by decide) (by decide)
    (transform_single (Val.vstr "X") "1,000" 1 gdpConvert_thousand)

/-- C6: on a raw frame (one holding its GDP column), `transform` fails —
producing no converted frame at all — exactly when some record's GDP
value does not convert to a float after separator stripping, and succeeds
when every record's value converts. -/
theorem C6_numeric_failure (df : DataFrame) (vals : List Val)
    (h : getColumn df "GDP_USD_millions" = some vals) :
    (∃ e, transform df = .error e) ↔ ∃ v ∈ vals, toFloatVal v = none := by
  unfold transform
  rw [h]
  dsimp only
  cases hfl : floatList vals with
  | ok qs =>
    dsimp only
    have hne : ¬∃ v ∈ vals, toFloatVal v = none := by
      intro hx
      obtain ⟨e, he⟩ := (floatList_error_iff vals).mpr hx
      rw [hfl] at he
      cases he
    constructor
    · rintro ⟨e, he⟩
      simp at he
    · intro hx
      exact absurd hx hne
  | error e =>
    dsimp only
    have hx := (floatList_error_iff vals).mp ⟨e, hfl⟩
    exact ⟨fun _ => hx, fun _ => ⟨e, rfl⟩⟩

/-- Raw frame with an unconvertible GDP value for the C6 witness. -/
def c6Df : DataFrame :=
  ⟨[("Country", [Val.vstr "X"]), ("GDP_USD_millions", [Val.vstr "N/A"])]⟩

/-- Raw frame whose every GDP value converts, for the C6 witness. -/
def c6GoodDf : DataFrame :=
  ⟨[("Country", [Val.vstr "Y"]), ("GDP_USD_millions", [Val.vstr "5"])]⟩

/-- C6, witness: the equivalence applied to one failing and one succeeding
concrete frame. -/
theorem C6_witness :
    (∃ e, transform c6Df = .error e) ∧
    ¬(∃ e, transform c6GoodDf = .error e) := by
  constructor
  · exact (C6_numeric_failure c6Df [Val.vstr "N/A"] (by decide)).mpr
      ⟨Val.vstr "N/A", by decide, by decide⟩
  · intro hx
    have h2 := (C6_numeric_failure c6GoodDf [Val.vstr "5"] (by decide)).mp hx
    revert h2
    decide

/-- A textual DataFrame value (a Python string or a stored tag), the
spec's classification of the values of a `TEXT` column. -/
def textualVal : Val → Bool
  | .vstr _ => true
  | .vnode _ => true
  | _ => false

/-- A numeric DataFrame value, the spec's classification of the values of
a `NUMBER` column. -/
def numericVal : Val → Bool
  | .vnum _ => true
  | _ => false

/-- C7: the derived storage schema maps every textual column to `TEXT`
and every numeric column to `NUMBER`; the created table's column list is
exactly the auto-increment identity column followed by the schema-derived
columns in the frame's column order; and deriving twice from the same
frame yields the identical mapping. -/
theorem C7_schema_derivation (df : DataFrame) :
    (∀ n vs, (n, vs) ∈ df.cols →
      ((vs ≠ [] ∧ ∀ v ∈ vs, textualVal v = true) →
        (n, ColType.TEXT) ∈ deriveSchema df) ∧
      ((vs ≠ [] ∧ ∀ v ∈ vs, numericVal v = true) →
        (n, ColType.NUMBER) ∈ deriveSchema df)) ∧
    createTableColumns df =
      ("id", "INT AUTO_INCREMENT PRIMARY KEY") ::
        (deriveSchema df).map (fun p => (p.1, ColType.sql p.2)) ∧
    (deriveSchema df).map Prod.fst = df.columns ∧
    deriveSchema df = deriveSchema df := by
  refine ⟨?_, rfl, ?_, rfl⟩
  · intro n vs hmem
    constructor
    · rintro ⟨hne, hall⟩
      have hobj : colDtypeObject vs = true := by
        cases vs with
        | nil => exact absurd rfl hne
        | cons v rest =>
          have hv := hall v (by simp)
          unfold colDtypeObject
          simp only [List.isEmpty_cons, Bool.false_or, List.any_cons]
          cases v <;> simp_all [textualVal]
      exact List.mem_map.mpr ⟨(n, vs), hmem, by simp [hobj]⟩
    · rintro ⟨hne, hall⟩
      have hobj : colDtypeObject vs = false := by
        cases vs with
        | nil => exact absurd rfl hne
        | cons v rest =>
          unfold colDtypeObject
          simp only [List.isEmpty_cons, Bool.false_or]
          rw [List.any_eq_false]
          intro x hx
          have hxn := hall x hx
          cases x <;> simp_all [numericVal]
      exact List.mem_map.mpr ⟨(n, vs), hmem, by simp [hobj]⟩
  · simp [deriveSchema, DataFrame.columns]

/-- Transformed frame for the C7 and C8 witnesses. -/
def c7Df : DataFrame :=
  ⟨[("Country", [Val.vstr "X"]), ("GDP_USD_billions", [Val.vnum 1])]⟩

/-- C7, witness: the schema rule applied to a concrete frame with one
textual and one numeric column. -/
theorem C7_witness :
    ("Country", ColType.TEXT) ∈ deriveSchema c7Df ∧
    ("GDP_USD_billions", ColType.NUMBER) ∈ deriveSchema c7Df :=
  ⟨((C7_schema_derivation c7Df).1 "Country" [Val.vstr "X"] (by decide)).1
      ⟨by decide, by decide⟩,
   ((C7_schema_derivation c7Df).1 "GDP_USD_billions" [Val.vnum 1] (by decide)).2
      ⟨by decide, by decide⟩⟩

/-- C8: one parameterized insert per record — the table sink appends one
row per frame record with no dedup or upsert, so loading the same frame
twice into the already-existing table yields twice the frame's record
count; every executed insert uses the fixed placeholder statement built
from the column names only, with the values passed separately. -/
theorem C8_append_only (df : DataFrame) :
    (loadToDb (some (loadToDb none df)) df).length = 2 * (dfRecords df).length ∧
    (insertCalls df).length = (dfRecords df).length ∧
    (∀ call ∈ insertCalls df,
      call.1 = dmlStatement df.columns ∧ call.2 ∈ dfRecords df) ∧
    (∀ df2 : DataFrame, df2.columns = df.columns →
      (insertCalls df2).map Prod.fst =
        List.replicate (dfRecords df2).length (dmlStatement df.columns)) := by
  refine ⟨?_, ?_, ?_, ?_⟩
  · simp [loadToDb, two_mul]
  · simp [insertCalls]
  · intro call hc
    obtain ⟨r, hr, hcall⟩ := List.mem_map.mp hc
    rw [← hcall]
    exact ⟨rfl, hr⟩
  · intro df2 h2
    rw [← h2]
    unfold insertCalls
    rw [List.map_map]
    have hcomp : (Prod.fst ∘ fun r : List Val => (dmlStatement df2.columns, r)) =
        fun _ => dmlStatement df2.columns := rfl
    rw [hcomp]
    exact List.map_const' _ _

/-- C8, witness: the append-only property at a concrete two-record frame,
with one concrete insert call inspected. -/
theorem C8_witness :
    (loadToDb (some (loadToDb none c7Df)) c7Df).length =
      2 * (dfRecords c7Df).length ∧
    ((dmlStatement c7Df.columns, [Val.vstr "X", Val.vnum 1]) :
        String × List Val).1 = dmlStatement c7Df.columns ∧
    ([Val.vstr "X", Val.vnum 1] : List Val) ∈ dfRecords c7Df :=
  ⟨(C8_append_only c7Df).1,
   ((C8_append_only c7Df).2.2.1 (dmlStatement c7Df.columns, [Val.vstr "X", Val.vnum 1])
      (by decide)).1,
   ((C8_append_only c7Df).2.2.1 (dmlStatement c7Df.columns, [Val.vstr "X", Val.vnum 1])
      (by decide)).2⟩

/-- C10: when `run_query` raises, the query cell's `except` handler logs
the query error, but the `finally` block references the never-assigned
variable `quey_statement` and itself raises a `NameError` that escapes
the cell, so the `"Query made"` log line is never written on failure
(when `run_query` succeeds, the cell logs the `"Query made"` line and
nothing escapes). -/
theorem C10_query_finally (e : String) :
    (runQueryCell (.error e)).1 = ["Error while querying data: " ++ e] ∧
    (runQueryCell (.error e)).2 = some (nameErrMsg "quey_statement") ∧
    ∀ q, runQueryCell (.ok q) = (["Query made: " ++ q], none) :=
  ⟨rfl, rfl, fun _ => rfl⟩
